import Mathlib

/-!
Verification of the cache subsystem of the token-analytics proxy.

The embedding covers:
* `localStorage.js` (the durable storage layer): `readData`, `writeData`,
  `deleteData`, `isExpired`, `cacheData`, `getCachedData`;
* `cache.js` (the wrapper used by the server): `cacheData`, `getCachedData`,
  `deleteCachedData`;
* the `server.js` token endpoint's dual-cache write path (`memoryCache`);
* the Memory Tier eviction pass (modelled from the spec, absent from the
  sources at hand).

JavaScript values are modelled by the inductive `JSVal`.  Dates: the storage
layer stores `new Date().toISOString()` and re-parses it with
`new Date(ts).getTime()`; a string that parses as a date carrying epoch-ms `t`
is modelled by the dedicated constructor `JSVal.vtime t`, while `JSVal.vstr`
stands for strings that do not parse as dates (`getTime()` yields `NaN`).
`NaN` outcomes of numeric coercion are modelled by `Option Int` with
`none = NaN`; any `>` comparison involving `NaN` is `false`, as in JS.
File-system errors are explicit `Bool` inputs (`ioErr`): `true` means the
underlying `fs` call throws; the JS code catches such errors inside the
storage layer, so in the model they only decide whether the store changes.
-/

/-- Model of a JavaScript (JSON-serializable) value. -/
inductive JSVal : Type where
  | vnull : JSVal
  | vbool : Bool → JSVal
  | vnum  : Int → JSVal
  | vstr  : String → JSVal
  /-- A string that parses as a date with epoch milliseconds `t`
      (e.g. the output of `toISOString()`). -/
  | vtime : Int → JSVal
  | vobj  : List (String × JSVal) → JSVal

/-- JS truthiness of a value (`!v` is the negation of this). -/
def truthy : JSVal → Bool
  | .vnull => false
  | .vbool b => b
  | .vnum n => n != 0
  | .vstr s => s != ""
  | .vtime _ => true
  | .vobj _ => true

/-- Property access `o[k]` on an object: `none` models JS `undefined`. -/
def lookupField : List (String × JSVal) → String → Option JSVal
  | [], _ => none
  | (k', v) :: rest, k => if k' = k then some v else lookupField rest k

/-- Property access `v.k`; on non-objects every property is `undefined`. -/
def getField : JSVal → String → Option JSVal
  | .vobj fields, k => lookupField fields k
  | _, _ => none

/-- `new Date(v).getTime()`: `none` models `NaN` (invalid date).
    Numbers are epoch ms; a date-string (`vtime`) recovers its time;
    other strings and objects yield `NaN`; `null` coerces to `0`,
    `true` to `1`, `false` to `0`. -/
def dateParse : JSVal → Option Int
  | .vnull => some 0
  | .vbool b => some (if b then 1 else 0)
  | .vnum n => some n
  | .vstr _ => none
  | .vtime t => some t
  | .vobj _ => none

/-- JS numeric coercion `Number(v)`: `none` models `NaN`.  Date-strings and
    objects coerce to `NaN`; the empty string to `0`.  (Numeric string
    literals such as `"5"` are not produced by any stored record here.) -/
def toNumber : JSVal → Option Int
  | .vnull => some 0
  | .vbool b => some (if b then 1 else 0)
  | .vnum n => some n
  | .vstr s => if s = "" then some 0 else none
  | .vtime _ => none
  | .vobj _ => none

/-- The JS comparison `now > v` with numeric coercion of `v`;
    any comparison with `NaN` is `false`. -/
def jsGt (now : Int) (v : JSVal) : Bool :=
  match toNumber v with
  | none => false
  | some m => decide (now > m)

/-- Content of one durable record file: either unparsable bytes
    (`JSON.parse` throws) or a parsed JS value. -/
inductive DiskEntry : Type where
  | corrupt : DiskEntry
  | val : JSVal → DiskEntry

/-- A (collection, key) pair addressing one durable record. -/
abbrev CKey := String × String

/-- The durable store: association list from (collection, key) to file
    content; later writes shadow earlier ones via `storeInsert`. -/
abbrev Store := List (CKey × DiskEntry)

/-- Lookup of the record for a (collection, key). -/
def storeLookup : Store → CKey → Option DiskEntry
  | [], _ => none
  | (ck', v) :: rest, ck => if ck' = ck then some v else storeLookup rest ck

/-- Removal of the record for a (collection, key); absent keys are a no-op. -/
def storeErase (s : Store) (ck : CKey) : Store :=
  s.filter (fun e => !decide (e.1 = ck))

/-- Overwriting write of a record. -/
def storeInsert (s : Store) (ck : CKey) (v : DiskEntry) : Store :=
  (ck, v) :: storeErase s ck

namespace LocalStorage

/-- `readData(collection, key)`: `null` if the file is absent; `JSON.parse`
    failure (corrupt content) is caught, logged and returns `null`. -/
def readData (s : Store) (collection key : String) : Option JSVal :=
  match storeLookup s (collection, key) with
  | none => none
  | some .corrupt => none
  | some (.val j) => some j

/-- `writeData(collection, key, value)`: writes the serialized value; an
    `fs` error (`ioErr = true`) is caught and logged, leaving the store
    unchanged, and nothing is returned either way. -/
def writeData (s : Store) (collection key : String) (v : JSVal)
    (ioErr : Bool) : Store :=
  if ioErr then s else storeInsert s (collection, key) (.val v)

/-- `deleteData(collection, key)`: unlinks the file if it exists; an `fs`
    error is caught and logged, leaving the store unchanged. -/
def deleteData (s : Store) (collection key : String) (ioErr : Bool) : Store :=
  if ioErr then s else storeErase s (collection, key)

/-- `isExpired(timestamp, duration)`: `true` for a falsy timestamp;
    otherwise `Date.now() - new Date(timestamp).getTime() > duration`,
    which is `false` whenever the parse is `NaN` or `duration` is
    `undefined` (any comparison involving `NaN` is `false`). -/
def isExpired (now : Int) (timestamp : Option JSVal) (duration : Option Int) :
    Bool :=
  match timestamp with
  | none => true
  | some ts =>
    if truthy ts = false then true
    else
      match dateParse ts, duration with
      | some t, some d => decide (now - t > d)
      | _, _ => false

/-- `cacheData(collection, key, data, duration)`: writes the envelope
    `{data, timestamp: new Date().toISOString(), duration}` through
    `writeData`.  `JSON.stringify` drops a field whose value is
    `undefined`, so an omitted duration stores no `duration` field.
    Returns `undefined` (no value). -/
def cacheData (now : Int) (s : Store) (collection key : String) (data : JSVal)
    (duration : Option Int) (ioErr : Bool) : Store :=
  let fields := [("data", data), ("timestamp", JSVal.vtime now)] ++
    (match duration with
     | some d => [("duration", JSVal.vnum d)]
     | none => [])
  writeData s collection key (.vobj fields) ioErr

/-- `getCachedData(collection, key, duration)`: reads the envelope; absent
    gives `null`; if `isExpired(entry.timestamp, duration)` the record is
    deleted and `null` returned; otherwise `entry.data` is returned
    (`none` also models the `undefined` of a missing `data` field). -/
def getCachedData (now : Int) (s : Store) (collection key : String)
    (duration : Option Int) (delErr : Bool) : Option JSVal × Store :=
  match readData s collection key with
  | none => (none, s)
  | some entry =>
    if isExpired now (getField entry "timestamp") duration then
      (none, deleteData s collection key delErr)
    else
      (getField entry "data", s)

end LocalStorage

namespace CacheJS

/-- `cacheData(key, data, duration)` of `cache.js`: skips the write and
    returns `false` when `key` or `data` is falsy; otherwise wraps the
    payload as `{data, timestamp: Date.now(), expiry: Date.now() +
    (duration || 30000)}` and calls the storage `cacheData('cache', key, …)`
    with only three arguments, so the storage-level duration is
    `undefined`.  The storage call returns `undefined`, hence
    `result?.error` is falsy and the function returns `true` even when the
    underlying write threw (the error was already swallowed by
    `writeData`). -/
def cacheData (now : Int) (s : Store) (key : String) (data : JSVal)
    (duration : Option Int) (ioErr : Bool) : Bool × Store :=
  if key = "" ∨ truthy data = false then (false, s)
  else
    let effDur : Int :=
      match duration with
      | some d => if d = 0 then 30000 else d
      | none => 30000
    let inner : JSVal := .vobj [("data", data), ("timestamp", JSVal.vnum now),
      ("expiry", JSVal.vnum (now + effDur))]
    (true, LocalStorage.cacheData now s "cache" key inner none ioErr)

/-- `deleteCachedData(key)` of `cache.js`: `false` on a falsy key;
    otherwise deletes through the storage layer (whose errors are
    swallowed), sees no `result?.error`, and returns `true`. -/
def deleteCachedData (s : Store) (key : String) (ioErr : Bool) :
    Bool × Store :=
  if key = "" then (false, s)
  else (true, LocalStorage.deleteData s "cache" key ioErr)

/-- `getCachedData(key, duration)` of `cache.js`: delegates to the storage
    `getCachedData('cache', key, duration)`, which yields the inner wrapper
    `{data, timestamp, expiry}` for a fresh record.  A falsy result or a
    falsy `result.data` (the original payload!) reads as a miss.  The
    expiry check inspects `result.data.expiry` — a field of the payload
    itself, not of the wrapper — and on `expiry && Date.now() > expiry`
    deletes the record and returns `null`.  Otherwise the whole wrapper
    object `result` is returned (not the payload). -/
def getCachedData (now : Int) (s : Store) (key : String)
    (duration : Option Int) (delErr : Bool) : Option JSVal × Store :=
  if key = "" then (none, s)
  else
    match LocalStorage.getCachedData now s "cache" key duration delErr with
    | (none, s') => (none, s')
    | (some r, s') =>
      if truthy r = false then (none, s')
      else
        match getField r "data" with
        | none => (none, s')
        | some d =>
          if truthy d = false then (none, s')
          else
            let expiryHit : Bool :=
              match getField d "expiry" with
              | none => false
              | some e => truthy e && jsGt now e
            if expiryHit then (none, (deleteCachedData s' key delErr).2)
            else (some r, s')

end CacheJS

/-- One entry of the server's in-process `memoryCache`:
    `{data, timestamp: Date.now()}`. -/
structure MemEntry : Type where
  data : JSVal
  timestamp : Int

/-- The server's `memoryCache` (`new Map()`), keyed by flat strings. -/
abbrev MemCache := List (String × MemEntry)

/-- `memoryCache.get(key)`. -/
def memLookup : MemCache → String → Option MemEntry
  | [], _ => none
  | (k', v) :: rest, k => if k' = k then some v else memLookup rest k

/-- `memoryCache.set(key, value)`: overwrites any previous entry. -/
def memInsert (m : MemCache) (key : String) (v : MemEntry) : MemCache :=
  (key, v) :: m.filter (fun e => !decide (e.1 = key))

namespace ServerJS

/-- The dual-cache update of the `/api/token/:tokenId` handler
    (`server.js`): `await cacheData(cacheKey, enrichedTokenData,
    CACHE_DURATION)` followed unconditionally by `memoryCache.set(
    memoryCacheKey, {data: enrichedTokenData, timestamp: Date.now()})`.
    The boolean result of the durable write is discarded; both
    `cacheKey` and `memoryCacheKey` are `token_` + tokenId and
    `CACHE_DURATION` is 30000. -/
def updateBothCaches (now : Int) (s : Store) (mem : MemCache)
    (tokenId : String) (payload : JSVal) (ioErr : Bool) : Store × MemCache :=
  let key := "token_" ++ tokenId
  let res := CacheJS.cacheData now s key payload (some 30000) ioErr
  (res.2, memInsert mem key ⟨payload, now⟩)

end ServerJS

/-- Ordering of memory-cache entries by ascending timestamp
    (`(a, b) => a.timestamp - b.timestamp`). -/
def memOlder (a b : String × MemEntry) : Prop :=
  a.2.timestamp ≤ b.2.timestamp

instance : DecidableRel memOlder := fun a b =>
  inferInstanceAs (Decidable (a.2.timestamp ≤ b.2.timestamp))

instance : IsTotal (String × MemEntry) memOlder :=
  ⟨fun a b => Int.le_total a.2.timestamp b.2.timestamp⟩

instance : IsTrans (String × MemEntry) memOlder :=
  ⟨fun _ _ _ hab hbc => le_trans hab hbc⟩

/-- Modelled from the spec: the Memory Tier's periodic bounded-size
    eviction task is not present in the sources under `src/` (only the
    `memoryCache` declaration is).  Per §4.4 of the spec the task "runs
    only when the tier's entry count exceeds a configured maximum; it
    sorts entries by ascending `timestamp` and removes the oldest 20%"
    (20% of the current entry count, rounded down). -/
def evictionPass (mem : MemCache) (maxEntries : Nat) : MemCache :=
  if mem.length ≤ maxEntries then mem
  else (List.insertionSort memOlder mem).drop (mem.length / 5)

/-- Eleven memory-cache entries with timestamps 0..10, exceeding a
    configured maximum of 10: the concrete input of the eviction
    counterexample. -/
def mem11 : MemCache :=
  (List.range 11).map (fun i => (toString i, ⟨JSVal.vnull, (i : Int)⟩))

/-- A payload carrying its own numeric `expiry` field lying in the past;
    the concrete payload witnessing the `result.data.expiry` confusion in
    `cache.js`. -/
def payloadWithOwnExpiry : JSVal :=
  .vobj [("expiry", .vnum 5), ("x", .vnum 42)]

/-- Follows the spec's words (§4.2), for comparison with the code's
    `isExpired`: "returns `now() - envelope.writtenAt >
    (ttlMsOverride ?? envelope.ttlMs)`". -/
def isExpiredSpec (now writtenAt : Int) (ttlMsOverride : Option Int)
    (ttlMs : Int) : Bool :=
  decide (now - writtenAt > ttlMsOverride.getD ttlMs)

/-- `storeLookup` finds the just-inserted record. -/
theorem storeLookup_insert_self (s : Store) (ck : CKey) (v : DiskEntry) :
    storeLookup (storeInsert s ck v) ck = some v := by
  simp [storeInsert, storeLookup]

/-- `storeErase` removes every record at the key. -/
theorem storeLookup_erase_self (s : Store) (ck : CKey) :
    storeLookup (storeErase s ck) ck = none := by
  induction s with
  | nil => rfl
  | cons e rest ih =>
    by_cases h : e.1 = ck
    · simpa [storeErase, h] using ih
    · simpa [storeErase, storeLookup, h] using ih

/-- A freshly written storage envelope reads back with its three fields. -/
theorem readData_cacheData (now : Int) (s : Store) (c k : String) (v : JSVal)
    (ttl : Int) :
    LocalStorage.readData (LocalStorage.cacheData now s c k v (some ttl) false) c k
      = some (.vobj [("data", v), ("timestamp", .vtime now),
          ("duration", .vnum ttl)]) := by
  simp [LocalStorage.cacheData, LocalStorage.writeData, LocalStorage.readData,
    storeLookup_insert_self]

/-- Claim C1: for every duration `ttlMs > 0` and every payload `v`
    (falsy payloads such as `0`, `''`, `false`, `null` included),
    `cacheData(c, k, v, ttlMs)` followed immediately by
    `getCachedData(c, k, ttlMs)` at the same instant returns exactly `v`
    and leaves the store as written. -/
theorem put_then_get_returns_payload (s : Store) (c k : String) (v : JSVal)
    (ttl now : Int) (h : 0 < ttl) :
    LocalStorage.getCachedData now
        (LocalStorage.cacheData now s c k v (some ttl) false) c k (some ttl) false
      = (some v, LocalStorage.cacheData now s c k v (some ttl) false) := by
  unfold LocalStorage.getCachedData
  rw [readData_cacheData]
  simp [getField, lookupField, LocalStorage.isExpired, truthy, dateParse]
  omega

/-- Witness for C1 at a falsy payload (`null`) with `ttlMs = 10`. -/
theorem put_then_get_returns_payload_witness :
    (0 : Int) < 10
    ∧ LocalStorage.getCachedData 5
        (LocalStorage.cacheData 5 [] "c" "k" JSVal.vnull (some 10) false)
        "c" "k" (some 10) false
      = (some JSVal.vnull,
         LocalStorage.cacheData 5 [] "c" "k" JSVal.vnull (some 10) false) :=
  ⟨by decide, put_then_get_returns_payload [] "c" "k" JSVal.vnull 10 5 (by decide)⟩

/-- Claim C2: after `cacheData(c, k, v, 50)` at `t0`, a
    `getCachedData(c, k, 50)` at any `t1` with `t1 - t0 > 50` returns
    `null` and deletes the durable record, so any later `getCachedData`
    also returns `null` (lazy-deleted, not resurrected). -/
theorem stale_get_deletes_and_stays_null (s : Store) (c k : String) (v : JSVal)
    (t0 t1 t2 : Int) (h : t1 - t0 > 50) :
    (LocalStorage.getCachedData t1
        (LocalStorage.cacheData t0 s c k v (some 50) false) c k (some 50) false).1 = none
    ∧ storeLookup (LocalStorage.getCachedData t1
        (LocalStorage.cacheData t0 s c k v (some 50) false) c k (some 50) false).2 (c, k) = none
    ∧ (LocalStorage.getCachedData t2 (LocalStorage.getCachedData t1
        (LocalStorage.cacheData t0 s c k v (some 50) false) c k (some 50) false).2
        c k (some 50) false).1 = none := by
  have hexp : LocalStorage.isExpired t1 (some (.vtime t0)) (some 50) = true := by
    simp [LocalStorage.isExpired, truthy, dateParse]; omega
  have hget : LocalStorage.getCachedData t1
      (LocalStorage.cacheData t0 s c k v (some 50) false) c k (some 50) false
      = (none, LocalStorage.deleteData
          (LocalStorage.cacheData t0 s c k v (some 50) false) c k false) := by
    unfold LocalStorage.getCachedData
    rw [readData_cacheData]
    simp [getField, lookupField, hexp]
  rw [hget]
  have hlook : storeLookup (LocalStorage.deleteData
      (LocalStorage.cacheData t0 s c k v (some 50) false) c k false) (c, k) = none := by
    simp [LocalStorage.deleteData, storeLookup_erase_self]
  refine ⟨rfl, hlook, ?_⟩
  unfold LocalStorage.getCachedData LocalStorage.readData
  rw [hlook]

/-- Witness for C2 with write at 0 ms, reads at 60 ms and 70 ms. -/
theorem stale_get_deletes_and_stays_null_witness :
    ((60 : Int) - 0 > 50)
    ∧ ((LocalStorage.getCachedData 60
        (LocalStorage.cacheData 0 [] "c" "k" (.vstr "v") (some 50) false) "c" "k" (some 50) false).1 = none
      ∧ storeLookup (LocalStorage.getCachedData 60
        (LocalStorage.cacheData 0 [] "c" "k" (.vstr "v") (some 50) false) "c" "k" (some 50) false).2 ("c", "k") = none
      ∧ (LocalStorage.getCachedData 70 (LocalStorage.getCachedData 60
        (LocalStorage.cacheData 0 [] "c" "k" (.vstr "v") (some 50) false) "c" "k" (some 50) false).2
        "c" "k" (some 50) false).1 = none) :=
  ⟨by decide, stale_get_deletes_and_stays_null [] "c" "k" (.vstr "v") 0 60 70 (by decide)⟩

/-- Claim C3: a record written with `ttlMs = 100000` read with duration 10
    after more than 10 ms (but within the write-time TTL) returns `null`:
    the read-time duration governs freshness, not the write-time one —
    indeed the same timestamp is not expired under the stored duration. -/
theorem read_duration_governs_freshness (s : Store) (c k : String) (v : JSVal)
    (t0 t1 : Int) (h1 : t1 - t0 > 10) (h2 : t1 - t0 ≤ 100000) :
    (LocalStorage.getCachedData t1
        (LocalStorage.cacheData t0 s c k v (some 100000) false) c k (some 10) false).1 = none
    ∧ LocalStorage.isExpired t1 (some (.vtime t0)) (some 100000) = false := by
  have hexp : LocalStorage.isExpired t1 (some (.vtime t0)) (some 10) = true := by
    simp [LocalStorage.isExpired, truthy, dateParse]; omega
  constructor
  · unfold LocalStorage.getCachedData
    rw [readData_cacheData]
    simp [getField, lookupField, hexp]
  · simp [LocalStorage.isExpired, truthy, dateParse]; omega

/-- Witness for C3: write at 0 ms with TTL 100000, read at 20 ms with
    duration 10. -/
theorem read_duration_governs_freshness_witness :
    ((20 : Int) - 0 > 10) ∧ ((20 : Int) - 0 ≤ 100000)
    ∧ ((LocalStorage.getCachedData 20
        (LocalStorage.cacheData 0 [] "c" "k" (.vnum 3) (some 100000) false) "c" "k" (some 10) false).1 = none
      ∧ LocalStorage.isExpired 20 (some (.vtime 0)) (some 100000) = false) :=
  ⟨by decide, by decide,
    read_duration_governs_freshness [] "c" "k" (.vnum 3) 0 20 (by decide) (by decide)⟩

/-- Counterexample to claim C4: with an I/O error during the durable write
    (`ioErr = true`), `cacheData` of `cache.js` still returns `true`, and
    the record was not persisted (the store is unchanged and empty). -/
theorem put_true_on_io_error_counterexample :
    CacheJS.cacheData 0 [] "k" (.vnum 1) (some 1000) true = (true, [])
    ∧ LocalStorage.readData [] "cache" "k" = none := ⟨rfl, rfl⟩

/-- Claim C4 as amended: `cacheData` of `cache.js` never throws, but for a
    truthy key and payload it returns `true` regardless of any underlying
    I/O error — the storage layer swallows write errors, so `true` does
    not imply persistence; a failed write leaves the store unchanged. -/
theorem put_returns_true_despite_io_error (now : Int) (s : Store) (key : String)
    (data : JSVal) (dur : Option Int) (ioErr : Bool)
    (hk : key ≠ "") (hd : truthy data = true) :
    (CacheJS.cacheData now s key data dur ioErr).1 = true
    ∧ (CacheJS.cacheData now s key data dur true).2 = s := by
  constructor <;>
    simp [CacheJS.cacheData, hk, hd, LocalStorage.cacheData, LocalStorage.writeData]

/-- Witness for the amended C4 at key `"k"`, payload `1`, failing write. -/
theorem put_returns_true_despite_io_error_witness :
    ("k" : String) ≠ "" ∧ truthy (.vnum 1) = true
    ∧ ((CacheJS.cacheData 7 [] "k" (.vnum 1) (some 1000) true).1 = true
      ∧ (CacheJS.cacheData 7 [] "k" (.vnum 1) (some 1000) true).2 = []) :=
  ⟨by decide, by decide,
    put_returns_true_despite_io_error 7 [] "k" (.vnum 1) (some 1000) true
      (by decide) (by decide)⟩

/-- Counterexample to claim C5: for an envelope written at 0 with stored
    `ttlMs = 5`, read at `now = 100` with no override, the spec formula
    `now - writtenAt > (override ?? ttlMs)` gives `true`, but the code's
    `isExpired` — which never sees the stored TTL and compares against
    `undefined` (`NaN`) — returns `false`. -/
theorem isExpired_ignores_stored_ttl :
    LocalStorage.isExpired 100 (some (.vtime 0)) none = false
    ∧ isExpiredSpec 100 0 none 5 = true := ⟨rfl, rfl⟩

/-- Claim C5 as amended: `isExpired(timestamp, duration)` returns
    `now() - parse(timestamp) > duration` when a duration and a parseable
    truthy timestamp are supplied; it never consults a stored TTL — with
    the duration omitted the comparison involves `NaN` and yields `false`
    (never expired), and a missing timestamp yields `true`. -/
theorem isExpired_semantics (now t d : Int) (dO : Option Int) :
    LocalStorage.isExpired now (some (.vtime t)) (some d) = decide (now - t > d)
    ∧ LocalStorage.isExpired now (some (.vtime t)) none = false
    ∧ LocalStorage.isExpired now none dO = true :=
  ⟨rfl, rfl, rfl⟩

/-- Counterexample to claim C6: a stored record whose `timestamp` is the
    malformed (unparseable, truthy) string `"garbage"` is not treated as
    expired — `getCachedData` returns its payload `7` and leaves the
    record in place. -/
theorem malformed_writtenAt_reads_fresh :
    LocalStorage.getCachedData 1000000
        [(("c", "k"), .val (.vobj [("data", .vnum 7), ("timestamp", .vstr "garbage")]))]
        "c" "k" (some 50) false
      = (some (.vnum 7),
         [(("c", "k"), .val (.vobj [("data", .vnum 7), ("timestamp", .vstr "garbage")]))]) := rfl

/-- Claim C6 as amended: a record with a missing (or falsy) `timestamp` is
    treated as already expired — `getCachedData` deletes it and returns
    `null`; but a record whose `timestamp` is present, truthy and
    unparseable compares via `NaN`, is treated as never expired, and
    `getCachedData` returns its payload. -/
theorem missing_writtenAt_expired_malformed_fresh (now : Int) (s1 s2 : Store)
    (c k : String) (dur : Option Int) (data : JSVal) (g : String) (hg : g ≠ "")
    (h1 : storeLookup s1 (c, k) = some (.val (.vobj [("data", data)])))
    (h2 : storeLookup s2 (c, k)
      = some (.val (.vobj [("data", data), ("timestamp", .vstr g)]))) :
    LocalStorage.getCachedData now s1 c k dur false = (none, storeErase s1 (c, k))
    ∧ LocalStorage.getCachedData now s2 c k dur false = (some data, s2) := by
  constructor
  · unfold LocalStorage.getCachedData LocalStorage.readData
    rw [h1]
    simp [getField, lookupField, LocalStorage.isExpired, LocalStorage.deleteData]
  · unfold LocalStorage.getCachedData LocalStorage.readData
    rw [h2]
    simp [getField, lookupField, LocalStorage.isExpired, truthy, dateParse, hg]

/-- Witness for the amended C6 on two singleton stores. -/
theorem missing_writtenAt_expired_malformed_fresh_witness :
    ("zzz" : String) ≠ ""
    ∧ storeLookup [(("c", "k"), DiskEntry.val (.vobj [("data", .vnum 1)]))] ("c", "k")
      = some (.val (.vobj [("data", .vnum 1)]))
    ∧ storeLookup [(("c", "k"), DiskEntry.val (.vobj [("data", .vnum 1), ("timestamp", .vstr "zzz")]))] ("c", "k")
      = some (.val (.vobj [("data", .vnum 1), ("timestamp", .vstr "zzz")]))
    ∧ (LocalStorage.getCachedData 9 [(("c", "k"), DiskEntry.val (.vobj [("data", .vnum 1)]))] "c" "k" (some 50) false
        = (none, storeErase [(("c", "k"), DiskEntry.val (.vobj [("data", .vnum 1)]))] ("c", "k"))
      ∧ LocalStorage.getCachedData 9 [(("c", "k"), DiskEntry.val (.vobj [("data", .vnum 1), ("timestamp", .vstr "zzz")]))] "c" "k" (some 50) false
        = (some (.vnum 1), [(("c", "k"), DiskEntry.val (.vobj [("data", .vnum 1), ("timestamp", .vstr "zzz")]))])) :=
  ⟨by decide, rfl, rfl,
    missing_writtenAt_expired_malformed_fresh 9
      [(("c", "k"), DiskEntry.val (.vobj [("data", .vnum 1)]))]
      [(("c", "k"), DiskEntry.val (.vobj [("data", .vnum 1), ("timestamp", .vstr "zzz")]))]
      "c" "k" (some 50) (.vnum 1) "zzz" (by decide) rfl rfl⟩

/-- Claim C7: a record whose stored content is unparsable reads as absent:
    `readData` returns `null`, the storage `getCachedData` returns `null`
    leaving the store untouched, and (for the `cache` collection) the
    `cache.js` `getCachedData` also returns `null`; the model is total, so
    no exception reaches the caller. -/
theorem corrupt_record_reads_as_miss (now : Int) (s : Store) (c k : String)
    (dur : Option Int) (dErr : Bool)
    (h : storeLookup s (c, k) = some .corrupt) :
    LocalStorage.readData s c k = none
    ∧ LocalStorage.getCachedData now s c k dur dErr = (none, s)
    ∧ (c = "cache" → CacheJS.getCachedData now s k dur dErr = (none, s)) := by
  have hr : LocalStorage.readData s c k = none := by
    unfold LocalStorage.readData
    rw [h]
  have hg : LocalStorage.getCachedData now s c k dur dErr = (none, s) := by
    unfold LocalStorage.getCachedData
    rw [hr]
  refine ⟨hr, hg, ?_⟩
  intro hc
  subst hc
  unfold CacheJS.getCachedData
  rw [hg]
  simp

/-- Witness for C7 on a store holding one corrupt record. -/
theorem corrupt_record_reads_as_miss_witness :
    storeLookup [(("cache", "k"), DiskEntry.corrupt)] ("cache", "k") = some .corrupt
    ∧ (LocalStorage.readData [(("cache", "k"), DiskEntry.corrupt)] "cache" "k" = none
      ∧ LocalStorage.getCachedData 3 [(("cache", "k"), DiskEntry.corrupt)] "cache" "k" (some 10) false
        = (none, [(("cache", "k"), DiskEntry.corrupt)])
      ∧ ("cache" = "cache" →
          CacheJS.getCachedData 3 [(("cache", "k"), DiskEntry.corrupt)] "k" (some 10) false
            = (none, [(("cache", "k"), DiskEntry.corrupt)]))) :=
  ⟨rfl, corrupt_record_reads_as_miss 3 [(("cache", "k"), DiskEntry.corrupt)]
    "cache" "k" (some 10) false rfl⟩

/-- Counterexample to claim C8: in the token endpoint's dual-cache update,
    when the durable write fails (`ioErr = true`) the durable store stays
    empty, yet the memory cache still receives the entry — the Memory Tier
    is written although the durable write did not succeed. -/
theorem memory_written_despite_durable_failure :
    (ServerJS.updateBothCaches 0 [] [] "t" (.vnum 1) true).1 = []
    ∧ memLookup (ServerJS.updateBothCaches 0 [] [] "t" (.vnum 1) true).2 "token_t"
      = some ⟨.vnum 1, 0⟩ := ⟨rfl, rfl⟩

/-- Claim C8 as amended: the durable write is attempted first, but its
    boolean result is discarded and the memory cache is updated
    unconditionally afterwards — even when the durable write failed, in
    which case the durable store is unchanged. -/
theorem memory_set_unconditionally (now : Int) (s : Store) (mem : MemCache)
    (t : String) (v : JSVal) (ioErr : Bool) :
    memLookup (ServerJS.updateBothCaches now s mem t v ioErr).2 ("token_" ++ t)
      = some ⟨v, now⟩
    ∧ (ServerJS.updateBothCaches now s mem t v true).1 = s := by
  constructor
  · simp [ServerJS.updateBothCaches, memInsert, memLookup]
  · by_cases h : ("token_" ++ t) = "" ∨ truthy v = false <;>
      simp [ServerJS.updateBothCaches, CacheJS.cacheData, h,
        LocalStorage.cacheData, LocalStorage.writeData]

/-- Counterexample to claim C9: eleven entries against a configured
    maximum of ten; the eviction pass removes `11 / 5 = 2` entries leaving
    nine — more than "the maximum minus the evicted 20%" (`10 - 2 = 8`). -/
theorem eviction_leaves_more_than_claimed :
    mem11.length = 11
    ∧ (evictionPass mem11 10).length = 9
    ∧ ¬((evictionPass mem11 10).length ≤ 10 - mem11.length / 5) := by decide

/-- Claim C9 as amended: when the entry count exceeds the maximum, the
    eviction pass keeps exactly `count - count / 5` entries, and the
    removed entries are exactly the oldest fifth by timestamp — every
    entry of the dropped prefix is no newer than every kept entry.  The
    result need not be below the maximum minus 20%. -/
theorem eviction_removes_oldest_fifth (mem : MemCache) (maxEntries : Nat)
    (h : maxEntries < mem.length) :
    (evictionPass mem maxEntries).length = mem.length - mem.length / 5
    ∧ (∀ e ∈ (List.insertionSort memOlder mem).take (mem.length / 5),
        ∀ e' ∈ evictionPass mem maxEntries, e.2.timestamp ≤ e'.2.timestamp)
    ∧ evictionPass mem maxEntries
      = (List.insertionSort memOlder mem).drop (mem.length / 5) := by
  have hgt : ¬(mem.length ≤ maxEntries) := by omega
  unfold evictionPass
  rw [if_neg hgt]
  refine ⟨?_, ?_, rfl⟩
  · rw [List.length_drop, List.length_insertionSort]
  · intro e he e' he'
    have hsorted : List.Sorted memOlder (List.insertionSort memOlder mem) :=
      List.sorted_insertionSort memOlder mem
    have hsplit : List.Pairwise memOlder
        ((List.insertionSort memOlder mem).take (mem.length / 5) ++
          (List.insertionSort memOlder mem).drop (mem.length / 5)) := by
      rw [List.take_append_drop]
      exact hsorted
    exact (List.pairwise_append.mp hsplit).2.2 e he e' he'

/-- Witness for the amended C9 on the eleven-entry cache with maximum 10. -/
theorem eviction_removes_oldest_fifth_witness :
    10 < mem11.length
    ∧ ((evictionPass mem11 10).length = mem11.length - mem11.length / 5
      ∧ (∀ e ∈ (List.insertionSort memOlder mem11).take (mem11.length / 5),
          ∀ e' ∈ evictionPass mem11 10, e.2.timestamp ≤ e'.2.timestamp)
      ∧ evictionPass mem11 10
        = (List.insertionSort memOlder mem11).drop (mem11.length / 5)) :=
  ⟨by decide, eviction_removes_oldest_fifth mem11 10 (by decide)⟩

/-- Claim C10: a payload carrying its own numeric past `expiry` field makes
    `getCachedData` of `cache.js` delete a fresh record and return `null`:
    written and read at the same instant 1000 with duration 30000, the
    record is fresh under the storage check and not past its wrapper's own
    expiry 31000, yet the read deletes it and misses. -/
theorem payload_expiry_field_deletes_fresh_record :
    (CacheJS.cacheData 1000 [] "k" payloadWithOwnExpiry (some 30000) false).1 = true
    ∧ CacheJS.getCachedData 1000
        (CacheJS.cacheData 1000 [] "k" payloadWithOwnExpiry (some 30000) false).2
        "k" (some 30000) false = (none, [])
    ∧ LocalStorage.isExpired 1000 (some (.vtime 1000)) (some 30000) = false
    ∧ jsGt 1000 (.vnum 31000) = false := ⟨rfl, rfl, rfl, rfl⟩
